import Mathlib

/-!
Shallow embedding of the telemetry exporter (src/exporter.py) of the
SDI-Turtlebot-Setting repository.

Numbers are modelled as exact rationals (ℚ).  The external collaborators
(os.getenv, urllib.parse.urlparse, pika, rclpy, socket, time) are modelled
at their interface boundary: the environment is a record of optional
strings, a connection URI arrives already parsed (urlparse is stdlib), the
broker is a fallible sink `TelemetryData → Except String Unit`, and the
wall clock is a parameter.  Python's `round(x, 3)` (banker's rounding) is
modelled exactly on ℚ.
-/

namespace Exporter

/-- Python `round` to an integer: round half to even (banker's rounding),
as Python's builtin `round` behaves on exact values. -/
def roundHalfEven (q : ℚ) : ℤ :=
  let f := ⌊q⌋
  let r := q - (f : ℚ)
  if r < 1/2 then f
  else if 1/2 < r then f + 1
  else if f % 2 = 0 then f else f + 1

/-- Python `round(q, 3)`: three decimal digits, half to even. -/
def pyRound3 (q : ℚ) : ℚ := (roundHalfEven (q * 1000) : ℚ) / 1000

/-- Whitespace trimming on a character list, as Python's `int`/`float`
strip surrounding whitespace from their argument. -/
def pyTrim (s : String) : List Char :=
  ((s.data.dropWhile Char.isWhitespace).reverse.dropWhile Char.isWhitespace).reverse

/-- Whether every character of the list is a decimal digit. -/
def allDigits (cs : List Char) : Bool :=
  match cs with
  | [] => true
  | c :: rest => c.isDigit && allDigits rest

/-- The natural number denoted by a list of decimal digits (accumulator
form). -/
def digitsToNat (cs : List Char) (acc : ℕ) : ℕ :=
  match cs with
  | [] => acc
  | c :: rest => digitsToNat rest (acc * 10 + (c.toNat - 48))

/-- An optional leading sign: `(negative?, remaining characters)`. -/
def splitSign (cs : List Char) : Bool × List Char :=
  match cs with
  | c :: rest =>
      if c = '-' then (true, rest)
      else if c = '+' then (false, rest)
      else (false, cs)
  | [] => (false, [])

/-- Split at the first dot, when there is one: `(integer part, fractional
part?)`.  A second dot is left inside the fractional part, where the digit
check rejects it. -/
def splitDot (cs : List Char) : List Char × Option (List Char) :=
  match cs with
  | [] => ([], none)
  | c :: rest =>
      if c = '.' then ([], some rest)
      else
        let (a, b) := splitDot rest
        (c :: a, b)

/-- Python `int(s)` (an external builtin, modelled on the signed decimal
integer literals this program's configuration uses): surrounding
whitespace is stripped, an optional sign is read, and anything other than
a non-empty digit string raises `ValueError` (modelled as
`Except.error`). -/
def pyInt (s : String) : Except String Int :=
  let (neg, body) := splitSign (pyTrim s)
  if body ≠ [] ∧ allDigits body then
    Except.ok ((if neg then -1 else 1) * (digitsToNat body 0 : Int))
  else Except.error ("invalid literal for int() with base 10: " ++ s)

/-- The rational denoted by a plain signed decimal literal (optional sign,
digits, optional dot and fraction digits), or `none` when the string is
not of that form. -/
def parseDecimal (s : String) : Option ℚ :=
  let (neg, body) := splitSign (pyTrim s)
  match splitDot body with
  | (ip, none) =>
      if ip ≠ [] ∧ allDigits ip then
        some ((if neg then -1 else 1) * (digitsToNat ip 0 : ℚ))
      else none
  | (ip, some fp) =>
      if (ip ≠ [] ∨ fp ≠ []) ∧ allDigits ip ∧ allDigits fp then
        some ((if neg then -1 else 1) *
          ((digitsToNat ip 0 : ℚ) + (digitsToNat fp 0 : ℚ) / 10 ^ fp.length))
      else none

/-- Python `float(s)` (an external builtin, modelled on the plain decimal
forms this program's configuration uses); `ValueError` is modelled as
`Except.error`. -/
def pyFloat (s : String) : Except String ℚ :=
  match parseDecimal s with
  | some q => Except.ok q
  | none => Except.error ("could not convert string to float: " ++ s)

/-- Python `str.lower()` on the ASCII range, which covers the hostnames
and robot names this program handles. -/
def pyLower (s : String) : String :=
  String.mk (s.data.map (fun c => if c.isUpper then Char.ofNat (c.toNat + 32) else c))

/-- The result of `urllib.parse.urlparse` on a connection URI, at the
fields `build_rmq_params` reads.  `urlparse` itself is stdlib (external);
absent components are `none`, and an empty username/password component is
`some ""` (falsy in Python, like `None`). -/
structure ParsedUri where
  username : Option String
  password : Option String
  hostname : Option String
  port : Option Int
  path : String
deriving Repr, DecidableEq

/-- The environment variables the exporter reads (`os.getenv`).  A set but
empty `RABBITMQ_URI` is falsy in Python, so `rabbitmq_uri = none` covers
both unset and empty; the URI value is carried already parsed. -/
structure Env where
  rabbitmq_uri : Option ParsedUri
  rabbitmq_host : Option String
  rabbitmq_port : Option String
  rabbitmq_user : Option String
  rabbitmq_pass : Option String
  rabbitmq_vhost : Option String
  robot_name : Option String
  battery_spec_wh : Option String
deriving Repr, DecidableEq

/-- `required(name)` of exporter.py: the variable's value, or a fatal
`RuntimeError` when it is unset or empty (Python `if not val`). -/
def required (name : String) (val : Option String) : Except String String :=
  match val with
  | some v =>
      if v = "" then Except.error ("환경변수 " ++ name ++ " 가 설정돼 있지 않습니다.")
      else Except.ok v
  | none => Except.error ("환경변수 " ++ name ++ " 가 설정돼 있지 않습니다.")

/-- Python `uriField or required(name)` for a string URI component:
falls back to the discrete variable when the component is `None` or
empty (both falsy). -/
def or_required (uriField : Option String) (name : String) (envField : Option String) :
    Except String String :=
  match uriField with
  | some v => if v = "" then required name envField else Except.ok v
  | none => required name envField

/-- Python `p.port or int(required("RABBITMQ_PORT"))`: `None` and `0` are
falsy, so both fall back to the discrete variable. -/
def or_required_int (uriPort : Option Int) (envField : Option String) :
    Except String Int :=
  match uriPort with
  | some n =>
      if n = 0 then Except.bind (required "RABBITMQ_PORT" envField) pyInt
      else Except.ok n
  | none => Except.bind (required "RABBITMQ_PORT" envField) pyInt

/-- The connection parameters `build_rmq_params` assembles (the pika
`ConnectionParameters` fields the code sets from configuration). -/
structure RmqParams where
  host : String
  port : Int
  user : String
  password : String
  vhost : String
deriving Repr, DecidableEq

/-- `build_rmq_params()` of exporter.py (lines 19–39). -/
def build_rmq_params (env : Env) : Except String RmqParams :=
  match env.rabbitmq_uri with
  | some p => do
      let user ← or_required p.username "RABBITMQ_USER" env.rabbitmq_user
      let pw ← or_required p.password "RABBITMQ_PASS" env.rabbitmq_pass
      let host ← or_required p.hostname "RABBITMQ_HOST" env.rabbitmq_host
      let port ← or_required_int p.port env.rabbitmq_port
      let vhost := if p.path ≠ "" ∧ p.path ≠ "/" then String.drop p.path 1 else "/"
      Except.ok ⟨host, port, user, pw, vhost⟩
  | none => do
      let host ← required "RABBITMQ_HOST" env.rabbitmq_host
      let port ← pyInt (← required "RABBITMQ_PORT" env.rabbitmq_port)
      let user ← required "RABBITMQ_USER" env.rabbitmq_user
      let pw ← required "RABBITMQ_PASS" env.rabbitmq_pass
      let vhost := env.rabbitmq_vhost.getD "/"
      Except.ok ⟨host, port, user, pw, vhost⟩

/-- The side effects `ExporterNode.__init__` performs, in program order,
after `build_rmq_params` has succeeded. -/
inductive InitStep where
  | logRmqInfo
  | connectBroker
  | declareQueue
  | logConnected
  | logBot
  | subscribeBattery
  | subscribePose
  | createTimer
deriving Repr, DecidableEq

/-- The state `ExporterNode.__init__` leaves behind on success. -/
structure InitState where
  params : RmqParams
  bot : String
  spec_wh : ℚ
  timer_period : ℚ
  steps : List InitStep
deriving Repr, DecidableEq

/-- `ExporterNode.__init__` (lines 42–78): configuration resolution, then
connection, queue declaration, subscriptions and the periodic timer.  A
configuration error aborts before any of the steps, subscriptions
included; the broker connection itself is an external collaborator and is
modelled as succeeding. -/
def exporterInit (env : Env) (hostname : String) : Except String InitState :=
  match build_rmq_params env with
  | Except.error e => Except.error e
  | Except.ok params =>
      let bot := pyLower (match env.robot_name with
        | some s => if s = "" then hostname else s
        | none => hostname)
      match pyFloat (env.battery_spec_wh.getD "19.98") with
      | Except.error e => Except.error e
      | Except.ok spec_wh =>
          Except.ok ⟨params, bot, spec_wh, 5,
            [InitStep.logRmqInfo, InitStep.connectBroker, InitStep.declareQueue,
             InitStep.logConnected, InitStep.logBot,
             InitStep.subscribeBattery, InitStep.subscribePose,
             InitStep.createTimer]⟩

/-- `sensor_msgs/BatteryState` at the fields the exporter reads.  A
percentage that was never populated is `none` (Python `None`). -/
structure BatteryState where
  percentage : Option ℚ
  voltage : ℚ
deriving Repr, DecidableEq

/-- A 2D position (`geometry_msgs/Point` at the fields read). -/
structure Point where
  x : ℚ
  y : ℚ
deriving Repr, DecidableEq

/-- `geometry_msgs/Pose` at the fields read. -/
structure Pose where
  position : Point
deriving Repr, DecidableEq

/-- `geometry_msgs/PoseWithCovariance` at the fields read. -/
structure PoseWithCovariance where
  pose : Pose
deriving Repr, DecidableEq

/-- `geometry_msgs/PoseWithCovarianceStamped` at the fields read. -/
structure PoseWithCovarianceStamped where
  pose : PoseWithCovariance
deriving Repr, DecidableEq

/-- A value interpolated into the tick's log line: a number, or the
literal string "N/A". -/
inductive LogVal where
  | num (q : ℚ)
  | na
deriving Repr, DecidableEq

/-- The warning diagnostics a tick can emit (lines 112 and 114). -/
inductive Diag where
  | noBattery
  | noPose
deriving Repr, DecidableEq

/-- The battery block of the wire-format record. -/
structure BatteryBlock where
  percentage : ℚ
  voltage : ℚ
  wh : ℚ
deriving Repr, DecidableEq

/-- The pose block of the wire-format record. -/
structure PoseBlock where
  x : ℚ
  y : ℚ
deriving Repr, DecidableEq

/-- The wire-format record `data` built at lines 117–127. -/
structure TelemetryData where
  ts : ℤ
  bot : String
  type : String
  battery : BatteryBlock
  pose : PoseBlock
deriving Repr, DecidableEq

/-- Everything one run of the tick handler does, observably: the values
interpolated into the log line, the warnings emitted, the records handed
to `basic_publish` (in order), and the logged publish error, if any. -/
structure TickResult where
  log_pct : LogVal
  log_volt : LogVal
  log_wh : LogVal
  log_x : LogVal
  log_y : LogVal
  warnings : List Diag
  attempted : List TelemetryData
  publish_error : Option String
deriving Repr, DecidableEq

/-- `ExporterNode.publish_telemetry_callback` (lines 86–136).  `now` is
`time.time_ns()`; `broker` is `channel.basic_publish`, a fallible external
sink whose exception (if any) is caught at lines 135–136 and recorded in
`publish_error`.  Python `msg.percentage or 0.0` yields `0.0` both for
`None` and for `0.0`, i.e. `Option.getD _ 0`. -/
def publish_telemetry_callback (bot : String) (spec_wh : ℚ) (now : ℤ)
    (last_battery_msg : Option BatteryState)
    (last_pose_msg : Option PoseWithCovarianceStamped)
    (broker : TelemetryData → Except String Unit) : TickResult :=
  let battVals : Option (ℚ × ℚ × ℚ × ℚ) :=
    match last_battery_msg with
    | some msg =>
        let raw_pct := msg.percentage.getD 0
        let ratio := if raw_pct > 1 then raw_pct / 100 else raw_pct
        let pct_disp := if raw_pct > 1 then raw_pct else raw_pct * 100
        some (ratio, pct_disp, ratio * spec_wh, msg.voltage)
    | none => none
  let poseVals : Option (ℚ × ℚ) :=
    match last_pose_msg with
    | some msg => some (msg.pose.pose.position.x, msg.pose.pose.position.y)
    | none => none
  let log_pct := match battVals with
    | some (_, pct_disp, _, _) => LogVal.num pct_disp
    | none => LogVal.na
  let log_volt := match battVals with
    | some (_, _, _, volt) => LogVal.num volt
    | none => LogVal.na
  let log_wh := match battVals with
    | some (_, _, wh, _) => LogVal.num wh
    | none => LogVal.na
  let log_x := match poseVals with
    | some (x_pos, _) => LogVal.num x_pos
    | none => LogVal.na
  let log_y := match poseVals with
    | some (_, y_pos) => LogVal.num y_pos
    | none => LogVal.na
  match battVals, poseVals with
  | some (ratio, _, wh, volt), some (x_pos, y_pos) =>
      let data : TelemetryData :=
        ⟨now, bot, "telemetry", ⟨ratio, volt, pyRound3 wh⟩, ⟨x_pos, y_pos⟩⟩
      let publish_error := match broker data with
        | Except.ok _ => none
        | Except.error e => some e
      ⟨log_pct, log_volt, log_wh, log_x, log_y, [], [data], publish_error⟩
  | none, some _ =>
      ⟨log_pct, log_volt, log_wh, log_x, log_y, [Diag.noBattery], [], none⟩
  | some _, none =>
      ⟨log_pct, log_volt, log_wh, log_x, log_y, [Diag.noPose], [], none⟩
  | none, none =>
      ⟨log_pct, log_volt, log_wh, log_x, log_y, [Diag.noBattery, Diag.noPose], [], none⟩

end Exporter
namespace Exporter

/-- C1: the battery-percentage normalizer: a raw value above 1 is already a
percent (wire ratio p/100, logged display p); a raw value at most 1 is a
fraction (wire ratio p, logged display p*100), and one heuristic result
feeds both the log line and the wire-format ratio. -/
theorem c1_normalizer_heuristic (bot : String) (spec_wh : ℚ) (now : ℤ)
    (p volt : ℚ) (pmsg : PoseWithCovarianceStamped)
    (broker : TelemetryData → Except String Unit) :
    (1 < p →
      List.map (fun d => d.battery.percentage)
          (publish_telemetry_callback bot spec_wh now (some ⟨some p, volt⟩)
            (some pmsg) broker).attempted = [p / 100] ∧
        (publish_telemetry_callback bot spec_wh now (some ⟨some p, volt⟩)
          (some pmsg) broker).log_pct = LogVal.num p) ∧
    (p ≤ 1 →
      List.map (fun d => d.battery.percentage)
          (publish_telemetry_callback bot spec_wh now (some ⟨some p, volt⟩)
            (some pmsg) broker).attempted = [p] ∧
        (publish_telemetry_callback bot spec_wh now (some ⟨some p, volt⟩)
          (some pmsg) broker).log_pct = LogVal.num (p * 100)) := by
  constructor
  · intro hp
    simp [publish_telemetry_callback, hp]
  · intro hp
    have hnp : ¬ (1 < p) := not_lt.mpr hp
    simp [publish_telemetry_callback, hnp]

theorem c1_witness :
    (List.map (fun d => d.battery.percentage)
        (publish_telemetry_callback "tb" 20 0 (some ⟨some 55, 12⟩)
          (some ⟨⟨⟨⟨1, 2⟩⟩⟩⟩) (fun _ => Except.ok ())).attempted = [55 / 100] ∧
      (publish_telemetry_callback "tb" 20 0 (some ⟨some 55, 12⟩)
        (some ⟨⟨⟨⟨1, 2⟩⟩⟩⟩) (fun _ => Except.ok ())).log_pct = LogVal.num 55) ∧
    (List.map (fun d => d.battery.percentage)
        (publish_telemetry_callback "tb" 20 0 (some ⟨some (2/5), 12⟩)
          (some ⟨⟨⟨⟨1, 2⟩⟩⟩⟩) (fun _ => Except.ok ())).attempted = [2/5] ∧
      (publish_telemetry_callback "tb" 20 0 (some ⟨some (2/5), 12⟩)
        (some ⟨⟨⟨⟨1, 2⟩⟩⟩⟩) (fun _ => Except.ok ())).log_pct = LogVal.num (2/5 * 100)) :=
  ⟨(c1_normalizer_heuristic "tb" 20 0 55 12 ⟨⟨⟨⟨1, 2⟩⟩⟩⟩ (fun _ => Except.ok ())).1 (by norm_num),
   (c1_normalizer_heuristic "tb" 20 0 (2/5) 12 ⟨⟨⟨⟨1, 2⟩⟩⟩⟩ (fun _ => Except.ok ())).2 (by norm_num)⟩

/-- C2: on each tick a record is built and handed to publish iff both cache
slots hold a sample; an absent slot means no record, a skipped publish, and
exactly one diagnostic per absent slot. -/
theorem c2_snapshot_iff_both_present (bot : String) (spec_wh : ℚ) (now : ℤ)
    (b : Option BatteryState) (p : Option PoseWithCovarianceStamped)
    (broker : TelemetryData → Except String Unit) :
    ((publish_telemetry_callback bot spec_wh now b p broker).attempted ≠ [] ↔
      b.isSome = true ∧ p.isSome = true) ∧
    (publish_telemetry_callback bot spec_wh now b p broker).warnings.count Diag.noBattery =
      (if b.isSome then 0 else 1) ∧
    (publish_telemetry_callback bot spec_wh now b p broker).warnings.count Diag.noPose =
      (if p.isSome then 0 else 1) := by
  cases b <;> cases p <;> simp [publish_telemetry_callback, List.count_cons]

/-- C3: when the tick makes a publish attempt and the broker raises, the
error is caught and logged inside the tick handler: the tick's observable
result is that of a successful tick except for the recorded error, the
snapshot is handed to the broker exactly once (no retry), and the handler
returns normally (the embedding is a total function). -/
theorem c3_publish_failure_swallowed (bot : String) (spec_wh : ℚ) (now : ℤ)
    (bmsg : BatteryState) (pmsg : PoseWithCovarianceStamped) (e : String) :
    publish_telemetry_callback bot spec_wh now (some bmsg) (some pmsg)
        (fun _ => Except.error e) =
      { publish_telemetry_callback bot spec_wh now (some bmsg) (some pmsg)
          (fun _ => Except.ok ()) with publish_error := some e } ∧
    (publish_telemetry_callback bot spec_wh now (some bmsg) (some pmsg)
        (fun _ => Except.error e)).attempted.length = 1 ∧
    (publish_telemetry_callback bot spec_wh now (some bmsg) (some pmsg)
        (fun _ => Except.error e)).publish_error = some e :=
  ⟨rfl, rfl, rfl⟩

/-- C8: a present power sample whose percentage field is absent is treated
as raw 0.0 and still yields a published record (pose present), unlike the
no-power-sample case, which skips the record and warns. -/
theorem c8_absent_percentage_is_zero (bot : String) (spec_wh : ℚ) (now : ℤ)
    (volt : ℚ) (pmsg : PoseWithCovarianceStamped)
    (broker : TelemetryData → Except String Unit) :
    (List.map (fun d => d.battery.percentage)
        (publish_telemetry_callback bot spec_wh now (some ⟨none, volt⟩)
          (some pmsg) broker).attempted = [0] ∧
      (publish_telemetry_callback bot spec_wh now (some ⟨none, volt⟩)
        (some pmsg) broker).warnings = []) ∧
    ((publish_telemetry_callback bot spec_wh now none (some pmsg) broker).attempted = [] ∧
      (publish_telemetry_callback bot spec_wh now none (some pmsg) broker).warnings =
        [Diag.noBattery]) := by
  norm_num [publish_telemetry_callback]

end Exporter
namespace Exporter

/-- C4 counterexample: a raw percentage of 200 on the power sample yields a
published wire-format percentage of 2, which is outside [0, 1]; the claim
fails for this raw value. -/
theorem c4_counterexample :
    List.map (fun d => d.battery.percentage)
        (publish_telemetry_callback "tb" 2 0 (some ⟨some 200, 12⟩)
          (some ⟨⟨⟨⟨1, 2⟩⟩⟩⟩) (fun _ => Except.ok ())).attempted = [2] ∧
    ¬ ((2 : ℚ) ≤ 1) := by
  norm_num [publish_telemetry_callback]

/-- C4 amended: the published wire-format percentage lies in [0, 1] for
every raw percentage value in [0, 100]; raw values outside that range pass
through the normalizer unclamped. -/
theorem c4_ratio_in_unit_interval (bot : String) (spec_wh : ℚ) (now : ℤ)
    (p volt : ℚ) (pmsg : PoseWithCovarianceStamped)
    (broker : TelemetryData → Except String Unit)
    (h0 : 0 ≤ p) (h100 : p ≤ 100) (d : TelemetryData)
    (hd : d ∈ (publish_telemetry_callback bot spec_wh now (some ⟨some p, volt⟩)
      (some pmsg) broker).attempted) :
    0 ≤ d.battery.percentage ∧ d.battery.percentage ≤ 1 := by
  simp [publish_telemetry_callback] at hd
  subst hd
  simp only
  by_cases hp : 1 < p
  · rw [if_pos hp]
    constructor
    · positivity
    · rw [div_le_one (by norm_num)]
      exact h100
  · rw [if_neg hp]
    exact ⟨h0, not_lt.mp hp⟩

theorem c4_witness :
    0 ≤ (55 : ℚ) ∧ (55 : ℚ) ≤ 100 ∧
    (0 ≤ ((⟨0, "tb", "telemetry", ⟨55/100, 12, 11⟩, ⟨1, 2⟩⟩ : TelemetryData)).battery.percentage ∧
      ((⟨0, "tb", "telemetry", ⟨55/100, 12, 11⟩, ⟨1, 2⟩⟩ : TelemetryData)).battery.percentage ≤ 1) :=
  ⟨by norm_num, by norm_num,
    c4_ratio_in_unit_interval "tb" 20 0 55 12 ⟨⟨⟨⟨1, 2⟩⟩⟩⟩ (fun _ => Except.ok ())
      (by norm_num) (by norm_num) _
      (by norm_num [publish_telemetry_callback, pyRound3, roundHalfEven])⟩

/-- C5: every published record carries wh equal to round(ratio *
capacity_Wh, 3) (banker's rounding, three decimals) for the configured
capacity, while the tick's log line carries the unrounded product. -/
theorem c5_wh_rounding (bot : String) (spec_wh : ℚ) (now : ℤ)
    (b : Option BatteryState) (p : Option PoseWithCovarianceStamped)
    (broker : TelemetryData → Except String Unit) (d : TelemetryData)
    (hd : (publish_telemetry_callback bot spec_wh now b p broker).attempted = [d]) :
    d.battery.wh = pyRound3 (d.battery.percentage * spec_wh) ∧
    (publish_telemetry_callback bot spec_wh now b p broker).log_wh =
      LogVal.num (d.battery.percentage * spec_wh) := by
  cases b with
  | none => cases p <;> simp [publish_telemetry_callback] at hd
  | some bmsg =>
    cases p with
    | none => simp [publish_telemetry_callback] at hd
    | some pmsg =>
      simp [publish_telemetry_callback] at hd ⊢
      subst hd
      by_cases h : 1 < bmsg.percentage.getD 0 <;> simp [h]

theorem c5_witness :
    ((⟨0, "tb", "telemetry", ⟨55/100, 12, 11⟩, ⟨1, 2⟩⟩ : TelemetryData)).battery.wh =
      pyRound3 (((⟨0, "tb", "telemetry", ⟨55/100, 12, 11⟩, ⟨1, 2⟩⟩ : TelemetryData)).battery.percentage * 20) ∧
    (publish_telemetry_callback "tb" 20 0 (some ⟨some 55, 12⟩)
        (some ⟨⟨⟨⟨1, 2⟩⟩⟩⟩) (fun _ => Except.ok ())).log_wh =
      LogVal.num (((⟨0, "tb", "telemetry", ⟨55/100, 12, 11⟩, ⟨1, 2⟩⟩ : TelemetryData)).battery.percentage * 20) :=
  c5_wh_rounding "tb" 20 0 (some ⟨some 55, 12⟩) (some ⟨⟨⟨⟨1, 2⟩⟩⟩⟩)
    (fun _ => Except.ok ()) _
    (by norm_num [publish_telemetry_callback, pyRound3, roundHalfEven])

end Exporter
namespace Exporter

lemma ok_bind {α β : Type} (a : α) (f : α → Except String β) :
    (Except.ok a >>= f) = f a := rfl

lemma error_bind {α β : Type} (e : String) (f : α → Except String β) :
    ((Except.error e : Except String α) >>= f) = Except.error e := rfl

lemma required_ok {name v : String} {val : Option String}
    (h : required name val = Except.ok v) : val = some v ∧ v ≠ "" := by
  cases val with
  | none => simp [required] at h
  | some s =>
    by_cases hs : s = ""
    · simp [required, hs] at h
    · simp only [required, if_neg hs] at h
      cases h
      exact ⟨rfl, hs⟩

lemma or_required_ok {u : Option String} {name v : String} {envf : Option String}
    (h : or_required u name envf = Except.ok v) :
    (u = some v ∧ v ≠ "") ∨ (envf = some v ∧ v ≠ "") := by
  cases u with
  | none => exact Or.inr (required_ok h)
  | some s =>
    by_cases hs : s = ""
    · have h2 : required name envf = Except.ok v := by simpa [or_required, hs] using h
      exact Or.inr (required_ok h2)
    · simp only [or_required, if_neg hs] at h
      cases h
      exact Or.inl ⟨rfl, hs⟩

lemma or_required_int_ok {u : Option Int} {envf : Option String} {v : Int}
    (h : or_required_int u envf = Except.ok v) :
    (u = some v ∧ v ≠ 0) ∨ (∃ s, envf = some s ∧ s ≠ "" ∧ pyInt s = Except.ok v) := by
  have hbind : ∀ hb : Except.bind (required "RABBITMQ_PORT" envf) pyInt = Except.ok v,
      ∃ s, envf = some s ∧ s ≠ "" ∧ pyInt s = Except.ok v := by
    intro hb
    rcases hr : required "RABBITMQ_PORT" envf with e | s
    · rw [hr] at hb
      exact Except.noConfusion (show Except.error e = Except.ok v from hb)
    · rw [hr] at hb
      obtain ⟨hsome, hne⟩ := required_ok hr
      exact ⟨s, hsome, hne, hb⟩
  cases u with
  | none => exact Or.inr (hbind h)
  | some n =>
    by_cases hn : n = 0
    · have h2 : Except.bind (required "RABBITMQ_PORT" envf) pyInt = Except.ok v := by
        simpa [or_required_int, hn] using h
      exact Or.inr (hbind h2)
    · simp only [or_required_int, if_neg hn] at h
      cases h
      exact Or.inl ⟨rfl, hn⟩

lemma build_ok_uri {env : Env} {p : ParsedUri} {params : RmqParams}
    (huri : env.rabbitmq_uri = some p)
    (hok : build_rmq_params env = Except.ok params) :
    or_required p.username "RABBITMQ_USER" env.rabbitmq_user = Except.ok params.user ∧
    or_required p.password "RABBITMQ_PASS" env.rabbitmq_pass = Except.ok params.password ∧
    or_required p.hostname "RABBITMQ_HOST" env.rabbitmq_host = Except.ok params.host ∧
    or_required_int p.port env.rabbitmq_port = Except.ok params.port ∧
    params.vhost = (if p.path ≠ "" ∧ p.path ≠ "/" then String.drop p.path 1 else "/") := by
  obtain ⟨uriF, hostF, portF, userF, passF, vhostF, rnF, bF⟩ := env
  simp only at huri
  subst huri
  simp only [build_rmq_params] at hok
  rcases h1 : or_required p.username "RABBITMQ_USER" userF with e | user <;> rw [h1] at hok
  · exact Except.noConfusion (show Except.error e = Except.ok params from hok)
  rcases h2 : or_required p.password "RABBITMQ_PASS" passF with e | pw <;> rw [h2] at hok
  · exact Except.noConfusion (show Except.error e = Except.ok params from hok)
  rcases h3 : or_required p.hostname "RABBITMQ_HOST" hostF with e | host <;> rw [h3] at hok
  · exact Except.noConfusion (show Except.error e = Except.ok params from hok)
  rcases h4 : or_required_int p.port portF with e | port <;> rw [h4] at hok
  · exact Except.noConfusion (show Except.error e = Except.ok params from hok)
  have h5 : (⟨host, port, user, pw,
      if p.path ≠ "" ∧ p.path ≠ "/" then String.drop p.path 1 else "/"⟩ : RmqParams) = params :=
    Except.ok.inj hok
  subst h5
  exact ⟨rfl, rfl, rfl, rfl, rfl⟩

lemma build_ok_no_uri {env : Env} {params : RmqParams}
    (huri : env.rabbitmq_uri = none)
    (hok : build_rmq_params env = Except.ok params) :
    required "RABBITMQ_HOST" env.rabbitmq_host = Except.ok params.host ∧
    (∃ s, env.rabbitmq_port = some s ∧ s ≠ "" ∧ pyInt s = Except.ok params.port) ∧
    required "RABBITMQ_USER" env.rabbitmq_user = Except.ok params.user ∧
    required "RABBITMQ_PASS" env.rabbitmq_pass = Except.ok params.password ∧
    params.vhost = env.rabbitmq_vhost.getD "/" := by
  obtain ⟨uriF, hostF, portF, userF, passF, vhostF, rnF, bF⟩ := env
  simp only at huri
  subst huri
  simp only [build_rmq_params] at hok
  rcases h1 : required "RABBITMQ_HOST" hostF with e | host <;>
    simp only [h1, ok_bind, error_bind] at hok
  · exact Except.noConfusion hok
  rcases h2 : required "RABBITMQ_PORT" portF with e | s <;>
    simp only [h2, ok_bind, error_bind] at hok
  · exact Except.noConfusion hok
  rcases h2b : pyInt s with e | port <;>
    simp only [h2b, ok_bind, error_bind] at hok
  · exact Except.noConfusion hok
  rcases h3 : required "RABBITMQ_USER" userF with e | user <;>
    simp only [h3, ok_bind, error_bind] at hok
  · exact Except.noConfusion hok
  rcases h4 : required "RABBITMQ_PASS" passF with e | pw <;>
    simp only [h4, ok_bind, error_bind] at hok
  · exact Except.noConfusion hok
  have h5 : (⟨host, port, user, pw, vhostF.getD "/"⟩ : RmqParams) = params :=
    Except.ok.inj hok
  subst h5
  obtain ⟨hsome, hne⟩ := required_ok h2
  exact ⟨rfl, ⟨s, hsome, hne, h2b⟩, rfl, rfl, rfl⟩

end Exporter
namespace Exporter

lemma init_ok_build {env : Env} {hostname : String} {s : InitState}
    (h : exporterInit env hostname = Except.ok s) :
    ∃ params, build_rmq_params env = Except.ok params := by
  rcases hb : build_rmq_params env with e | params
  · simp only [exporterInit, hb] at h
    exact Except.noConfusion h
  · exact ⟨params, rfl⟩

/-- C6 counterexample: with a connection URI that carries no vhost path and
the discrete vhost variable set to "custom", the resolved vhost is "/",
not "custom": the vhost field does not fall back to the discrete
configuration field. -/
theorem c6_counterexample :
    build_rmq_params ⟨some ⟨some "u", some "pw", some "h", some 5672, ""⟩,
        none, none, none, none, some "custom", none, none⟩ =
      Except.ok ⟨"h", 5672, "u", "pw", "/"⟩ ∧
    ("/" : String) ≠ "custom" := by
  constructor
  · rfl
  · decide

/-- C6 amended: with a URI, user, password, host and port are taken from the
URI when present and non-falsy there, and otherwise each falls back to its
discrete variable (fatal if that is missing); the vhost, however, is derived
from the URI path alone, defaulting to "/", never from the discrete vhost
variable.  Without a URI, a missing discrete host, port, user or password is
a fatal configuration error raised before any subscription is established
(the init aborts with an error, producing none of its steps). -/
theorem c6_uri_fallback_and_required :
    (∀ env p params, env.rabbitmq_uri = some p →
      build_rmq_params env = Except.ok params →
      ((p.username = none ∨ p.username = some "") →
        env.rabbitmq_user = some params.user) ∧
      (∀ u, p.username = some u → u ≠ "" → params.user = u) ∧
      ((p.password = none ∨ p.password = some "") →
        env.rabbitmq_pass = some params.password) ∧
      (∀ w, p.password = some w → w ≠ "" → params.password = w) ∧
      ((p.hostname = none ∨ p.hostname = some "") →
        env.rabbitmq_host = some params.host) ∧
      (∀ hn, p.hostname = some hn → hn ≠ "" → params.host = hn) ∧
      ((p.port = none ∨ p.port = some 0) →
        ∃ s, env.rabbitmq_port = some s ∧ pyInt s = Except.ok params.port) ∧
      (∀ n, p.port = some n → n ≠ 0 → params.port = n) ∧
      params.vhost = (if p.path ≠ "" ∧ p.path ≠ "/" then String.drop p.path 1 else "/")) ∧
    (∀ env hostname, env.rabbitmq_uri = none →
      (env.rabbitmq_host = none ∨ env.rabbitmq_port = none ∨
        env.rabbitmq_user = none ∨ env.rabbitmq_pass = none) →
      ∃ e, exporterInit env hostname = Except.error e) := by
  constructor
  · intro env p params huri hok
    obtain ⟨hu, hw, hh, hp, hv⟩ := build_ok_uri huri hok
    refine ⟨?_, ?_, ?_, ?_, ?_, ?_, ?_, ?_, hv⟩
    · rintro (hm | hm) <;> rw [hm] at hu
      · exact (required_ok hu).1
      · exact (required_ok (by simpa [or_required] using hu)).1
    · intro u hm hne
      rw [hm] at hu
      simp only [or_required, if_neg hne] at hu
      exact (Except.ok.inj hu).symm
    · rintro (hm | hm) <;> rw [hm] at hw
      · exact (required_ok hw).1
      · exact (required_ok (by simpa [or_required] using hw)).1
    · intro w hm hne
      rw [hm] at hw
      simp only [or_required, if_neg hne] at hw
      exact (Except.ok.inj hw).symm
    · rintro (hm | hm) <;> rw [hm] at hh
      · exact (required_ok hh).1
      · exact (required_ok (by simpa [or_required] using hh)).1
    · intro hn hm hne
      rw [hm] at hh
      simp only [or_required, if_neg hne] at hh
      exact (Except.ok.inj hh).symm
    · rintro (hm | hm) <;> rw [hm] at hp
      · rcases or_required_int_ok hp with ⟨h1, _⟩ | ⟨s, h1, _, h3⟩
        · exact Option.noConfusion h1
        · exact ⟨s, h1, h3⟩
      · rcases or_required_int_ok hp with ⟨h1, h2⟩ | ⟨s, h1, _, h3⟩
        · exact absurd (Option.some.inj h1).symm h2
        · exact ⟨s, h1, h3⟩
    · intro n hm hne
      rw [hm] at hp
      simp only [or_required_int, if_neg hne] at hp
      exact (Except.ok.inj hp).symm
  · intro env hostname huri hmiss
    rcases hinit : exporterInit env hostname with e | s
    · exact ⟨e, rfl⟩
    · exfalso
      obtain ⟨params, hb⟩ := init_ok_build hinit
      obtain ⟨hhost, ⟨sp, hport, _, _⟩, huser, hpass, _⟩ := build_ok_no_uri huri hb
      rcases hmiss with hm | hm | hm | hm
      · exact Option.noConfusion (hm ▸ (required_ok hhost).1)
      · exact Option.noConfusion (hm ▸ hport)
      · exact Option.noConfusion (hm ▸ (required_ok huser).1)
      · exact Option.noConfusion (hm ▸ (required_ok hpass).1)

theorem c6_witness :
    (({ host := "hh", port := 1234, user := "uu", password := "pp",
        vhost := "vh" } : RmqParams).user = "uu") ∧
    (∃ e, exporterInit ⟨none, none, some "1", some "u", some "p", none, none, none⟩
        "h0" = Except.error e) :=
  ⟨(c6_uri_fallback_and_required.1
      ⟨some ⟨some "uu", some "pp", some "hh", some 1234, "/vh"⟩,
        none, none, none, none, none, none, none⟩
      ⟨some "uu", some "pp", some "hh", some 1234, "/vh"⟩
      ⟨"hh", 1234, "uu", "pp", "vh"⟩ rfl rfl).2.1 "uu" rfl (by decide),
   c6_uri_fallback_and_required.2
      ⟨none, none, some "1", some "u", some "p", none, none, none⟩
      "h0" rfl (Or.inl rfl)⟩

/-- C7 counterexample: two runs whose configurations differ in every
variable the program reads (one even supplies a URI) both create the timer
with period 5: the tick period is not settable by configuration. -/
theorem c7_counterexample :
    Except.map InitState.timer_period
        (exporterInit ⟨none, some "hostA", some "1111", some "userA",
          some "passA", some "vhA", some "RobotA", some "10"⟩ "alpha") =
      Except.ok 5 ∧
    Except.map InitState.timer_period
        (exporterInit ⟨some ⟨some "u", some "p", some "h", some 2222, "/vb"⟩,
          none, none, none, none, none, none, some "40.5"⟩ "beta") =
      Except.ok 5 := ⟨rfl, rfl⟩

/-- C7 amended: the tick period is fixed at init to the program constant 5.0
(the design default); it is not part of the configuration surface, so no
configuration can change it. -/
theorem c7_timer_period_constant (env : Env) (hostname : String) :
    Except.map InitState.timer_period (exporterInit env hostname) =
      Except.map (fun _ => (5 : ℚ)) (exporterInit env hostname) := by
  rcases hb : build_rmq_params env with e | params
  · simp [exporterInit, hb, Except.map]
  · rcases hf : pyFloat (env.battery_spec_wh.getD "19.98") with e | q <;>
      simp [exporterInit, hb, hf, Except.map]

end Exporter
namespace Exporter

/-- C9: the robot identifier is the configured robot name when one is set
(non-empty), otherwise the local hostname, lowercased in both cases; and
every record handed to publish carries that identifier. -/
theorem c9_robot_identifier :
    (∀ env hostname n, env.robot_name = some n → n ≠ "" →
      Except.map InitState.bot (exporterInit env hostname) =
        Except.map (fun _ => pyLower n) (exporterInit env hostname)) ∧
    (∀ env hostname, env.robot_name = none →
      Except.map InitState.bot (exporterInit env hostname) =
        Except.map (fun _ => pyLower hostname) (exporterInit env hostname)) ∧
    (∀ bot spec_wh now b p broker d,
      d ∈ (publish_telemetry_callback bot spec_wh now b p broker).attempted →
        d.bot = bot) := by
  refine ⟨?_, ?_, ?_⟩
  · intro env hostname n hn hne
    rcases hb : build_rmq_params env with e | params
    · simp [exporterInit, hb, Except.map]
    · rcases hf : pyFloat (env.battery_spec_wh.getD "19.98") with e | q <;>
        simp [exporterInit, hb, hf, Except.map, hn, hne]
  · intro env hostname hn
    rcases hb : build_rmq_params env with e | params
    · simp [exporterInit, hb, Except.map]
    · rcases hf : pyFloat (env.battery_spec_wh.getD "19.98") with e | q <;>
        simp [exporterInit, hb, hf, Except.map, hn]
  · intro bot spec_wh now b p broker d hd
    cases b with
    | none => cases p <;> simp [publish_telemetry_callback] at hd
    | some bmsg =>
      cases p with
      | none => simp [publish_telemetry_callback] at hd
      | some pmsg =>
        simp [publish_telemetry_callback] at hd
        subst hd
        rfl

theorem c9_witness :
    (Except.map InitState.bot
        (exporterInit ⟨none, some "h1", some "5672", some "u1", some "p1",
          none, some "TB_01", none⟩ "OTHER") =
      Except.map (fun _ => pyLower "TB_01")
        (exporterInit ⟨none, some "h1", some "5672", some "u1", some "p1",
          none, some "TB_01", none⟩ "OTHER")) ∧
    (Except.map InitState.bot
        (exporterInit ⟨none, some "h1", some "5672", some "u1", some "p1",
          none, none, none⟩ "HostX") =
      Except.map (fun _ => pyLower "HostX")
        (exporterInit ⟨none, some "h1", some "5672", some "u1", some "p1",
          none, none, none⟩ "HostX")) ∧
    ((⟨0, "tb", "telemetry", ⟨0, 12, 0⟩, ⟨1, 2⟩⟩ : TelemetryData)).bot = "tb" :=
  ⟨c9_robot_identifier.1 ⟨none, some "h1", some "5672", some "u1", some "p1",
      none, some "TB_01", none⟩ "OTHER" "TB_01" rfl (by decide),
   c9_robot_identifier.2.1 ⟨none, some "h1", some "5672", some "u1", some "p1",
      none, none, none⟩ "HostX" rfl,
   c9_robot_identifier.2.2 "tb" 20 0 (some ⟨none, 12⟩) (some ⟨⟨⟨⟨1, 2⟩⟩⟩⟩)
      (fun _ => Except.ok ()) ⟨0, "tb", "telemetry", ⟨0, 12, 0⟩, ⟨1, 2⟩⟩
      (by norm_num [publish_telemetry_callback, pyRound3, roundHalfEven])⟩

lemma pyFloat_default : pyFloat "19.98" = Except.ok (999 / 50) := by
  rw [show pyFloat "19.98" = Except.ok (1 * ((19 : ℚ) + (98 : ℚ) / 10 ^ 2)) from rfl]
  norm_num

/-- C10: when the battery rated capacity variable is unset, the capacity
used for the energy-remaining computation defaults to 19.98 watt-hours. -/
theorem c10_capacity_default (env : Env) (hostname : String)
    (h : env.battery_spec_wh = none) :
    Except.map InitState.spec_wh (exporterInit env hostname) =
      Except.map (fun _ => (999 / 50 : ℚ)) (exporterInit env hostname) := by
  rcases hb : build_rmq_params env with e | params
  · simp [exporterInit, hb, Except.map]
  · simp [exporterInit, hb, h, pyFloat_default, Except.map]

theorem c10_witness :
    Except.map InitState.spec_wh
        (exporterInit ⟨none, some "h", some "1", some "u", some "p",
          none, none, none⟩ "host0") =
      Except.map (fun _ => (999 / 50 : ℚ))
        (exporterInit ⟨none, some "h", some "1", some "u", some "p",
          none, none, none⟩ "host0") :=
  c10_capacity_default ⟨none, some "h", some "1", some "u", some "p",
    none, none, none⟩ "host0" rfl

end Exporter
